import Mathlib

/-!
Shallow embedding of `src/server.py` (the "Ultimate Encrypted Chat Server"):
a SQLite-backed store-and-forward relay with a users table and a messages
table, plus four HTTP endpoints (register, send_message, get_messages,
all_users).

Modelling choices, all taken from the source:
* The SQLite database is a `DB`: the `users` table is a list of rows in
  rowid (insertion) order, the `messages` table is a list of rows in rowid
  order, and `nextId` is the AUTOINCREMENT counter for `messages.id`
  (every stored id is below it; a fresh insert takes `nextId` and bumps it).
* A `SELECT` without `ORDER BY` on these tables is a full table scan, which
  SQLite performs in rowid order; it is embedded as `List.filter` over the
  row list, which preserves that order.
* `datetime.utcnow().isoformat()` is an opaque string supplied as an
  explicit `ts` argument.
* Each helper (`user_exists`, `add_user`, `store_message`, `fetch_messages`)
  runs under the global `threading.Lock`, so each is one atomic step;
  endpoints compose these steps and the lock is NOT held between them.
* `raise HTTPException` aborts the handler: an endpoint returns
  `Except ApiError response × DB`, the second component being the database
  after the call (unchanged on the error paths, which all occur before any
  write).
* An `INSERT` violating the `users.username` PRIMARY KEY raises
  `sqlite3.IntegrityError`; `add_user` therefore returns `Except`. The
  endpoints never catch it, so it surfaces as an unhandled internal error.
-/

namespace ChatServer

/-- A row of the `users` table: `users(username TEXT PRIMARY KEY, created_at TEXT)`. -/
structure UserRec where
  username : String
  created_at : String
deriving Repr, DecidableEq

/-- A row of the `messages` table:
`messages(id INTEGER PRIMARY KEY AUTOINCREMENT, sender, recipient, encrypted, timestamp)`. -/
structure Msg where
  id : Nat
  sender : String
  recipient : String
  encrypted : String
  timestamp : String
deriving Repr, DecidableEq

/-- The SQLite database `chat.db`: both tables in rowid order, plus the
AUTOINCREMENT counter for `messages.id`. -/
structure DB where
  users : List UserRec
  messages : List Msg
  nextId : Nat
deriving Repr, DecidableEq

/-- Errors surfaced by an endpoint: `badRequest` is
`HTTPException(status_code=400, detail=...)`; `internalError` is an
uncaught exception (FastAPI answers 500). -/
inductive ApiError where
  | badRequest (detail : String)
  | internalError (detail : String)
deriving Repr, DecidableEq

/-- `user_exists` (server.py:75-82): `SELECT 1 FROM users WHERE username = ?`,
true iff some row matches. One lock-protected step. -/
def user_exists (db : DB) (username : String) : Bool :=
  db.users.any (fun u => u.username == username)

/-- `add_user` (server.py:84-93): `INSERT INTO users(username, created_at)`.
The PRIMARY KEY on `username` makes the insert fail with
`sqlite3.IntegrityError` when the username is already present; otherwise the
new row is appended. One lock-protected step. -/
def add_user (db : DB) (username ts : String) : Except String DB :=
  if db.users.any (fun u => u.username == username) then
    Except.error "UNIQUE constraint failed: users.username"
  else
    Except.ok { db with users := db.users ++ [⟨username, ts⟩] }

/-- `store_message` (server.py:95-104): `INSERT INTO messages(...)`; the row
receives the next AUTOINCREMENT id. One lock-protected step. -/
def store_message (db : DB) (sender recipient encrypted ts : String) : DB :=
  { db with
      messages := db.messages ++ [⟨db.nextId, sender, recipient, encrypted, ts⟩],
      nextId := db.nextId + 1 }

/-- The projection of a message row returned by `fetch_messages`
(server.py:121): sender, encrypted and timestamp, without the id. -/
structure FetchedRow where
  sender : String
  encrypted : String
  timestamp : String
deriving Repr, DecidableEq

/-- `fetch_messages` (server.py:106-121): under one lock acquisition, select
all rows with the given recipient (table-scan order = rowid order), then —
only when the selection is non-empty — `DELETE FROM messages WHERE id IN
(selected ids)`, and return the projected rows. -/
def fetch_messages (db : DB) (recipient : String) : List FetchedRow × DB :=
  let rows := db.messages.filter (fun m => m.recipient == recipient)
  let ids := rows.map (fun m => m.id)
  let db' :=
    if ids.isEmpty then db
    else { db with messages := db.messages.filter (fun m => !(ids.contains m.id)) }
  (rows.map (fun m => (⟨m.sender, m.encrypted, m.timestamp⟩ : FetchedRow)), db')

/-- Success body of `/register`: status "ok" and the username. -/
structure RegResponse where
  status : String
  username : String
deriving Repr, DecidableEq

/-- `register` (server.py:147-155): reject an empty username, reject an
existing username with a 400 "Username already exists", otherwise insert.
The `user_exists` check and the `add_user` insert each take the lock
separately; exceptions from `add_user` are not caught. -/
def register (db : DB) (username ts : String) : Except ApiError RegResponse × DB :=
  if username == "" then
    (Except.error (ApiError.badRequest "Username required"), db)
  else if user_exists db username then
    (Except.error (ApiError.badRequest "Username already exists"), db)
  else
    match add_user db username ts with
    | Except.ok db' => (Except.ok ⟨"ok", username⟩, db')
    | Except.error e => (Except.error (ApiError.internalError e), db)

/-- Success body of `/send_message`: just status "ok" (server.py:166). -/
structure SendResponse where
  status : String
deriving Repr, DecidableEq

/-- `send_message_endpoint` (server.py:158-166): reject if any field is
empty, reject if sender or recipient is unregistered (one combined check and
one combined error message), otherwise store the message and answer with
status "ok". -/
def send_message_endpoint (db : DB) (sender recipient encrypted ts : String) :
    Except ApiError SendResponse × DB :=
  if sender == "" || recipient == "" || encrypted == "" then
    (Except.error (ApiError.badRequest "All fields are required"), db)
  else if !(user_exists db sender) || !(user_exists db recipient) then
    (Except.error (ApiError.badRequest "Sender or recipient does not exist"), db)
  else
    (Except.ok ⟨"ok"⟩, store_message db sender recipient encrypted ts)

/-- Success body of `/get_messages`: the fetched rows and their count. -/
structure GetResponse where
  messages : List FetchedRow
  count : Nat
deriving Repr, DecidableEq

/-- `get_messages_endpoint` (server.py:169-174): reject an unregistered
recipient, otherwise fetch-and-purge. -/
def get_messages_endpoint (db : DB) (recipient : String) :
    Except ApiError GetResponse × DB :=
  if !(user_exists db recipient) then
    (Except.error (ApiError.badRequest "Recipient does not exist"), db)
  else
    let res := fetch_messages db recipient
    (Except.ok ⟨res.1, res.1.length⟩, res.2)

/-- Success body of `/all_users`. -/
structure AllUsersResponse where
  users : List UserRec
  count : Nat
deriving Repr, DecidableEq

/-- `all_users` (server.py:177-185): `SELECT username, created_at FROM users`
in table order; read-only. -/
def all_users (db : DB) : AllUsersResponse :=
  ⟨db.users, db.users.length⟩

/-- Well-formedness of the embedded database, maintained by SQLite itself:
message ids strictly increase in rowid order (AUTOINCREMENT), and every
stored id is below the AUTOINCREMENT counter. -/
def DB.wf (db : DB) : Prop :=
  db.messages.Pairwise (fun a b => a.id < b.id) ∧ ∀ m ∈ db.messages, m.id < db.nextId

/-- One client operation of the system (the four endpoints). -/
inductive Op where
  | doRegister (username ts : String)
  | doSend (sender recipient encrypted ts : String)
  | doFetch (recipient : String)
  | doListAll
deriving Repr, DecidableEq

/-- The database after one operation (listing users is read-only). -/
def applyOp (db : DB) : Op → DB
  | Op.doRegister u ts => (register db u ts).2
  | Op.doSend s r e ts => (send_message_endpoint db s r e ts).2
  | Op.doFetch r => (get_messages_endpoint db r).2
  | Op.doListAll => db

lemma add_user_of_not_exists (db : DB) (u ts : String)
    (hex : ¬user_exists db u = true) :
    add_user db u ts = Except.ok { db with users := db.users ++ [⟨u, ts⟩] } := by
  unfold add_user
  rw [if_neg]
  unfold user_exists at hex
  exact hex

lemma register_users_append (db : DB) (u ts : String) :
    ∃ tail, (register db u ts).2.users = db.users ++ tail := by
  unfold register
  split
  · exact ⟨[], by simp⟩
  · split
    · exact ⟨[], by simp⟩
    · rename_i hne hex
      rw [add_user_of_not_exists db u ts hex]
      exact ⟨[⟨u, ts⟩], by simp⟩

lemma send_users_append (db : DB) (s r e ts : String) :
    ∃ tail, (send_message_endpoint db s r e ts).2.users = db.users ++ tail := by
  unfold send_message_endpoint store_message
  split
  · exact ⟨[], by simp⟩
  · split
    · exact ⟨[], by simp⟩
    · exact ⟨[], by simp⟩

lemma fetch_users_eq (db : DB) (r : String) :
    (fetch_messages db r).2.users = db.users := by
  simp only [fetch_messages]
  split <;> rfl

lemma get_users_append (db : DB) (r : String) :
    ∃ tail, (get_messages_endpoint db r).2.users = db.users ++ tail := by
  unfold get_messages_endpoint
  split
  · exact ⟨[], by simp⟩
  · exact ⟨[], by simpa using fetch_users_eq db r⟩

lemma applyOp_users_append (db : DB) (op : Op) :
    ∃ tail, (applyOp db op).users = db.users ++ tail := by
  cases op with
  | doRegister u ts => exact register_users_append db u ts
  | doSend s r e ts => exact send_users_append db s r e ts
  | doFetch r => exact get_users_append db r
  | doListAll => exact ⟨[], by simp [applyOp]⟩

lemma user_exists_applyOp (db : DB) (op : Op) (u : String)
    (h : user_exists db u = true) : user_exists (applyOp db op) u = true := by
  obtain ⟨tail, htail⟩ := applyOp_users_append db op
  unfold user_exists at h ⊢
  rw [htail, List.any_append, h, Bool.true_or]

lemma user_exists_foldl (ops : List Op) (db : DB) (u : String)
    (h : user_exists db u = true) :
    user_exists (ops.foldl applyOp db) u = true := by
  induction ops generalizing db with
  | nil => exact h
  | cons op rest ih => exact ih _ (user_exists_applyOp db op u h)

lemma register_ok_facts (db : DB) (u ts : String) (resp : RegResponse) (db1 : DB)
    (h : register db u ts = (Except.ok resp, db1)) :
    (u == "") = false ∧ user_exists db1 u = true := by
  unfold register at h
  split at h
  · exact absurd h (by simp)
  · rename_i hne
    split at h
    · exact absurd h (by simp)
    · rename_i hex
      rw [add_user_of_not_exists db u ts hex] at h
      refine ⟨by simpa using hne, ?_⟩
      have hdb1 : ({ db with users := db.users ++ [⟨u, ts⟩] } : DB) = db1 := by
        have := congrArg Prod.snd h
        simpa using this
      rw [← hdb1]
      unfold user_exists
      simp

/-- C6: once a username is successfully registered, every later
registration of the same username — after any sequence of further
operations — fails with the 400 "Username already exists" error and leaves
the database unchanged. -/
theorem C6_duplicate_register_fails (db : DB) (u ts : String) (resp : RegResponse)
    (db1 : DB) (hreg : register db u ts = (Except.ok resp, db1))
    (ops : List Op) (ts' : String) :
    register (ops.foldl applyOp db1) u ts' =
      (Except.error (ApiError.badRequest "Username already exists"),
        ops.foldl applyOp db1) := by
  obtain ⟨hne, hex⟩ := register_ok_facts db u ts resp db1 hreg
  have hex2 := user_exists_foldl ops db1 u hex
  unfold register
  rw [if_neg (by simp_all), if_pos hex2]

/-- Witness for C6 at a concrete input: register "alice" on the empty
database, then send a message and fetch it, then try to register "alice"
again. -/
theorem C6_duplicate_register_fails_witness :
    register ([Op.doSend "alice" "alice" "hi" "t1",
               Op.doFetch "alice"].foldl applyOp
        (register ⟨[], [], 0⟩ "alice" "t0").2) "alice" "t2" =
      (Except.error (ApiError.badRequest "Username already exists"),
        [Op.doSend "alice" "alice" "hi" "t1",
         Op.doFetch "alice"].foldl applyOp (register ⟨[], [], 0⟩ "alice" "t0").2) := by
  exact C6_duplicate_register_fails ⟨[], [], 0⟩ "alice" "t0" ⟨"ok", "alice"⟩
    ⟨[⟨"alice", "t0"⟩], [], 0⟩ (by rfl)
    [Op.doSend "alice" "alice" "hi" "t1", Op.doFetch "alice"] "t2"

/-- C7: a send in which any of sender, recipient or encrypted is the empty
string fails with the 400 "All fields are required" error and leaves the
database unchanged (nothing is stored). -/
theorem C7_empty_field_send_fails (db : DB) (s r e ts : String)
    (h : s = "" ∨ r = "" ∨ e = "") :
    send_message_endpoint db s r e ts =
      (Except.error (ApiError.badRequest "All fields are required"), db) := by
  unfold send_message_endpoint
  rw [if_pos]
  rcases h with h | h | h <;> simp [h]

/-- Witness for C7: a send with an empty payload on a database with two
registered users. -/
theorem C7_empty_field_send_fails_witness :
    send_message_endpoint ⟨[⟨"alice", "t0"⟩, ⟨"bob", "t0"⟩], [], 0⟩
        "alice" "bob" "" "t1" =
      (Except.error (ApiError.badRequest "All fields are required"),
        ⟨[⟨"alice", "t0"⟩, ⟨"bob", "t0"⟩], [], 0⟩) :=
  C7_empty_field_send_fails ⟨[⟨"alice", "t0"⟩, ⟨"bob", "t0"⟩], [], 0⟩
    "alice" "bob" "" "t1" (Or.inr (Or.inr rfl))

/-- C8: every failing send — whatever the error — leaves the database
(users and messages alike) completely unchanged. -/
theorem C8_failed_send_frame (db : DB) (s r e ts : String) (err : ApiError)
    (h : (send_message_endpoint db s r e ts).1 = Except.error err) :
    (send_message_endpoint db s r e ts).2 = db := by
  unfold send_message_endpoint at h ⊢
  split at h
  · rename_i hc
    rw [if_pos hc]
  · rename_i hc1
    split at h
    · rename_i hc2
      rw [if_neg hc1, if_pos hc2]
    · exact absurd h (by simp)

/-- Witness for C8: a send to an unregistered recipient. -/
theorem C8_failed_send_frame_witness :
    (send_message_endpoint ⟨[⟨"alice", "t0"⟩], [], 0⟩ "alice" "carol" "x" "t1").2 =
      ⟨[⟨"alice", "t0"⟩], [], 0⟩ :=
  C8_failed_send_frame ⟨[⟨"alice", "t0"⟩], [], 0⟩ "alice" "carol" "x" "t1"
    (ApiError.badRequest "Sender or recipient does not exist") (by rfl)

/-- C9: no operation ever removes or modifies a registered user: after any
single operation the users table is the old table with zero or more new
rows appended, so every existing row (username and created_at alike)
survives unchanged. -/
theorem C9_users_immutable (db : DB) (op : Op) :
    ∃ tail, (applyOp db op).users = db.users ++ tail :=
  applyOp_users_append db op

lemma pairwise_id_ne (l : List Msg) (hpw : l.Pairwise (fun a b => a.id < b.id)) :
    l.Pairwise (fun a b => a.id ≠ b.id) :=
  hpw.imp (fun h => Nat.ne_of_lt h)

lemma ids_contains_iff (l : List Msg) (r : String)
    (hpw : l.Pairwise (fun a b => a.id < b.id)) :
    ∀ m ∈ l,
      ((l.filter (fun x => x.recipient == r)).map (fun x => x.id)).contains m.id
        = (m.recipient == r) := by
  intro m hm
  by_cases hrec : (m.recipient == r) = true
  · rw [hrec]
    exact List.elem_iff.2
      (List.mem_map_of_mem _ (List.mem_filter.2 ⟨hm, hrec⟩))
  · have hrec' : (m.recipient == r) = false := by simpa using hrec
    rw [hrec']
    cases hc : ((l.filter (fun x => x.recipient == r)).map (fun x => x.id)).contains m.id with
    | false => rfl
    | true =>
      exfalso
      obtain ⟨m', hm'mem, hm'id⟩ := List.mem_map.1 (List.elem_iff.1 hc)
      obtain ⟨hm'l, hm'rec⟩ := List.mem_filter.1 hm'mem
      have hne : m ≠ m' := by
        intro heq
        rw [← heq] at hm'rec
        rw [hrec'] at hm'rec
        exact Bool.false_ne_true hm'rec
      have hsym : Symmetric (fun a b : Msg => a.id ≠ b.id) :=
        fun _ _ h e => h e.symm
      exact (pairwise_id_ne l hpw).forall hsym hm hm'l hne hm'id.symm

lemma fetch_messages_remaining (db : DB) (r : String)
    (hpw : db.messages.Pairwise (fun a b => a.id < b.id)) :
    (fetch_messages db r).2.messages
      = db.messages.filter (fun m => !(m.recipient == r)) := by
  simp only [fetch_messages]
  split
  · rename_i hempty
    have hnil : db.messages.filter (fun m => m.recipient == r) = [] := by
      simpa using hempty
    have : ∀ m ∈ db.messages, (!(m.recipient == r)) = true := by
      intro m hm
      have := (List.filter_eq_nil_iff.1 hnil) m hm
      simpa using this
    exact (List.filter_eq_self.2 this).symm
  · exact List.filter_congr (fun m hm => congrArg Bool.not (ids_contains_iff db.messages r hpw m hm))

lemma fetch_nextId_eq (db : DB) (r : String) :
    (fetch_messages db r).2.nextId = db.nextId := by
  simp only [fetch_messages]
  split <;> rfl

lemma fetch_rows_eq (db : DB) (r : String) :
    (fetch_messages db r).1
      = (db.messages.filter (fun m => m.recipient == r)).map
          (fun m => (⟨m.sender, m.encrypted, m.timestamp⟩ : FetchedRow)) := rfl

lemma fetch_empty_frame (db : DB) (r : String)
    (h : db.messages.filter (fun m => m.recipient == r) = []) :
    (fetch_messages db r).2 = db := by
  simp [fetch_messages, h]

/-- C10: fetch-and-purge deletes exactly what it returns: the users table
and the id counter are untouched, the surviving messages are exactly the
ones addressed to other recipients, the returned rows are exactly the
projections of the purged ones, and a fetch for a recipient with nothing
pending leaves the whole database unchanged. -/
theorem C10_fetch_frame (db : DB) (r : String) (hwf : db.wf) :
    (fetch_messages db r).2.users = db.users ∧
    (fetch_messages db r).2.nextId = db.nextId ∧
    (fetch_messages db r).2.messages
      = db.messages.filter (fun m => !(m.recipient == r)) ∧
    (fetch_messages db r).1
      = (db.messages.filter (fun m => m.recipient == r)).map
          (fun m => (⟨m.sender, m.encrypted, m.timestamp⟩ : FetchedRow)) ∧
    (db.messages.filter (fun m => m.recipient == r) = [] →
      (fetch_messages db r).2 = db) :=
  ⟨fetch_users_eq db r, fetch_nextId_eq db r,
    fetch_messages_remaining db r hwf.1, fetch_rows_eq db r,
    fetch_empty_frame db r⟩

/-- Witness for C10 at a concrete database holding one message for "bob"
and one for "carol". -/
theorem C10_fetch_frame_witness :
    (fetch_messages ⟨[⟨"bob", "t0"⟩, ⟨"carol", "t0"⟩],
        [⟨0, "a", "bob", "x", "t1"⟩, ⟨1, "a", "carol", "y", "t2"⟩], 2⟩ "bob").2.users
      = [⟨"bob", "t0"⟩, ⟨"carol", "t0"⟩] ∧
    (fetch_messages ⟨[⟨"bob", "t0"⟩, ⟨"carol", "t0"⟩],
        [⟨0, "a", "bob", "x", "t1"⟩, ⟨1, "a", "carol", "y", "t2"⟩], 2⟩ "bob").2.messages
      = [⟨1, "a", "carol", "y", "t2"⟩] := by
  have h := C10_fetch_frame ⟨[⟨"bob", "t0"⟩, ⟨"carol", "t0"⟩],
    [⟨0, "a", "bob", "x", "t1"⟩, ⟨1, "a", "carol", "y", "t2"⟩], 2⟩ "bob"
    (by constructor
        · decide
        · decide)
  refine ⟨h.1, ?_⟩
  rw [h.2.2.1]
  rfl

/-- C2: the rows a fetch returns are exactly the stored rows addressed to
the recipient, kept in table order, and (by well-formedness) that order is
ascending message id — independently of how messages for other recipients
are interleaved in the table. -/
theorem C2_fetch_ordered (db : DB) (r : String) (hwf : db.wf) :
    ((db.messages.filter (fun m => m.recipient == r)).map
        (fun m => m.id)).Pairwise (· < ·) ∧
    (fetch_messages db r).1
      = (db.messages.filter (fun m => m.recipient == r)).map
          (fun m => (⟨m.sender, m.encrypted, m.timestamp⟩ : FetchedRow)) :=
  ⟨List.pairwise_map.2 (hwf.1.filter _), fetch_rows_eq db r⟩

/-- Witness for C2: messages for "bob" interleaved with one for "carol". -/
theorem C2_fetch_ordered_witness :
    (([⟨0, "a", "bob", "x", "t1"⟩, ⟨1, "a", "carol", "y", "t2"⟩,
       ⟨2, "c", "bob", "z", "t3"⟩].filter
        (fun m : Msg => m.recipient == "bob")).map (fun m => m.id)).Pairwise (· < ·) := by
  have h := C2_fetch_ordered ⟨[⟨"bob", "t0"⟩, ⟨"carol", "t0"⟩],
    [⟨0, "a", "bob", "x", "t1"⟩, ⟨1, "a", "carol", "y", "t2"⟩,
     ⟨2, "c", "bob", "z", "t3"⟩], 3⟩ "bob"
    (by constructor
        · decide
        · decide)
  exact h.1

/-- One send request addressed to a fixed recipient: sender, payload and
the timestamp the server would record. -/
structure SendReq where
  sender : String
  encrypted : String
  ts : String
deriving Repr, DecidableEq

/-- Run a batch of send_message requests to recipient `r`, in order, with
no interleaved fetch. -/
def runSends (db : DB) (r : String) : List SendReq → DB
  | [] => db
  | q :: qs => runSends (send_message_endpoint db q.sender r q.encrypted q.ts).2 r qs

/-- The message rows a successful batch of sends to `r` appends, given the
first fresh id `n`. -/
def mkMsgs (n : Nat) (r : String) : List SendReq → List Msg
  | [] => []
  | q :: qs => ⟨n, q.sender, r, q.encrypted, q.ts⟩ :: mkMsgs (n + 1) r qs

lemma send_success_step (db : DB) (s r e ts : String)
    (hs : s ≠ "") (hr : r ≠ "") (he : e ≠ "")
    (hsu : user_exists db s = true) (hru : user_exists db r = true) :
    send_message_endpoint db s r e ts = (Except.ok ⟨"ok"⟩, store_message db s r e ts) := by
  unfold send_message_endpoint
  rw [if_neg (by simp [hs, hr, he]), if_neg (by simp [hsu, hru])]

lemma user_exists_store (db : DB) (s r e ts u : String) :
    user_exists (store_message db s r e ts) u = user_exists db u := rfl

lemma runSends_spec (r : String) (batch : List SendReq) (db : DB)
    (hr : r ≠ "") (hru : user_exists db r = true)
    (hb : ∀ q ∈ batch, q.sender ≠ "" ∧ q.encrypted ≠ "" ∧ user_exists db q.sender = true) :
    (runSends db r batch).users = db.users ∧
    (runSends db r batch).messages = db.messages ++ mkMsgs db.nextId r batch ∧
    (runSends db r batch).nextId = db.nextId + batch.length := by
  induction batch generalizing db with
  | nil => simp [runSends, mkMsgs]
  | cons q qs ih =>
    obtain ⟨hs, he, hsu⟩ := hb q (List.mem_cons_self q qs)
    have hstep := send_success_step db q.sender r q.encrypted q.ts hs hr he hsu hru
    have hb' : ∀ p ∈ qs, p.sender ≠ "" ∧ p.encrypted ≠ "" ∧
        user_exists (store_message db q.sender r q.encrypted q.ts) p.sender = true := by
      intro p hp
      obtain ⟨h1, h2, h3⟩ := hb p (List.mem_cons_of_mem q hp)
      exact ⟨h1, h2, by rw [user_exists_store]; exact h3⟩
    have ih' := ih (store_message db q.sender r q.encrypted q.ts)
      (by rw [user_exists_store]; exact hru) hb'
    unfold runSends
    rw [hstep]
    refine ⟨by rw [ih'.1]; rfl, ?_, by rw [ih'.2.2]; simp [store_message]; omega⟩
    rw [ih'.2.1]
    simp only [store_message, mkMsgs]
    simp

lemma mkMsgs_filter_self (n : Nat) (r : String) (batch : List SendReq) :
    (mkMsgs n r batch).filter (fun m => m.recipient == r) = mkMsgs n r batch := by
  induction batch generalizing n with
  | nil => rfl
  | cons q qs ih => simp [mkMsgs, List.filter_cons, ih]

lemma mkMsgs_map_proj (n : Nat) (r : String) (batch : List SendReq) :
    (mkMsgs n r batch).map (fun m => (⟨m.sender, m.encrypted, m.timestamp⟩ : FetchedRow))
      = batch.map (fun q => (⟨q.sender, q.encrypted, q.ts⟩ : FetchedRow)) := by
  induction batch generalizing n with
  | nil => rfl
  | cons q qs ih => simp [mkMsgs, ih]

lemma mkMsgs_id_ge (n : Nat) (r : String) (batch : List SendReq) :
    ∀ m ∈ mkMsgs n r batch, n ≤ m.id := by
  induction batch generalizing n with
  | nil => intro m hm; cases hm
  | cons q qs ih =>
    intro m hm
    rcases List.mem_cons.1 hm with h | h
    · rw [h]
    · exact Nat.le_of_succ_le (ih (n + 1) m h)

lemma mkMsgs_id_lt (n : Nat) (r : String) (batch : List SendReq) :
    ∀ m ∈ mkMsgs n r batch, m.id < n + batch.length := by
  induction batch generalizing n with
  | nil => intro m hm; cases hm
  | cons q qs ih =>
    intro m hm
    rcases List.mem_cons.1 hm with h | h
    · rw [h]
      simp
    · have := ih (n + 1) m h
      simp only [List.length_cons]
      omega

lemma mkMsgs_pairwise (n : Nat) (r : String) (batch : List SendReq) :
    (mkMsgs n r batch).Pairwise (fun a b => a.id < b.id) := by
  induction batch generalizing n with
  | nil => exact List.Pairwise.nil
  | cons q qs ih =>
    refine List.Pairwise.cons ?_ (ih (n + 1))
    intro m hm
    exact Nat.lt_of_lt_of_le (Nat.lt_succ_self n) (mkMsgs_id_ge (n + 1) r qs m hm)

lemma runSends_wf (r : String) (batch : List SendReq) (db : DB)
    (hwf : db.wf) (hr : r ≠ "") (hru : user_exists db r = true)
    (hb : ∀ q ∈ batch, q.sender ≠ "" ∧ q.encrypted ≠ "" ∧ user_exists db q.sender = true) :
    (runSends db r batch).wf := by
  obtain ⟨_, hmsg, hnext⟩ := runSends_spec r batch db hr hru hb
  constructor
  · rw [hmsg]
    refine List.pairwise_append.2 ⟨hwf.1, mkMsgs_pairwise db.nextId r batch, ?_⟩
    intro a ha b hb'
    exact Nat.lt_of_lt_of_le (hwf.2 a ha) (mkMsgs_id_ge db.nextId r batch b hb')
  · intro m hm
    rw [hmsg] at hm
    rw [hnext]
    rcases List.mem_append.1 hm with h | h
    · exact Nat.lt_of_lt_of_le (hwf.2 m h) (Nat.le_add_right _ _)
    · exact mkMsgs_id_lt db.nextId r batch m h

/-- C1: starting from any well-formed database with no message pending for
`r`, after a batch of successful sends addressed to `r` with no interleaved
fetch, one fetch returns exactly the batch — same senders, payloads and
timestamps, in send order, hence exactly N rows — and an immediately
following fetch for `r` returns nothing: no message is returned twice. -/
theorem C1_at_most_once (db : DB) (r : String) (batch : List SendReq)
    (hwf : db.wf)
    (hempty : db.messages.filter (fun m => m.recipient == r) = [])
    (hr : r ≠ "") (hru : user_exists db r = true)
    (hb : ∀ q ∈ batch, q.sender ≠ "" ∧ q.encrypted ≠ "" ∧ user_exists db q.sender = true) :
    (fetch_messages (runSends db r batch) r).1
      = batch.map (fun q => (⟨q.sender, q.encrypted, q.ts⟩ : FetchedRow)) ∧
    (fetch_messages (runSends db r batch) r).1.length = batch.length ∧
    (fetch_messages (fetch_messages (runSends db r batch) r).2 r).1 = [] := by
  have hspec := runSends_spec r batch db hr hru hb
  have hwfN := runSends_wf r batch db hwf hr hru hb
  have hrows : (fetch_messages (runSends db r batch) r).1
      = batch.map (fun q => (⟨q.sender, q.encrypted, q.ts⟩ : FetchedRow)) := by
    rw [fetch_rows_eq, hspec.2.1, List.filter_append, hempty, List.nil_append,
      mkMsgs_filter_self, mkMsgs_map_proj]
  refine ⟨hrows, by rw [hrows, List.length_map], ?_⟩
  rw [fetch_rows_eq]
  have hnone : ((fetch_messages (runSends db r batch) r).2.messages.filter
      (fun m => m.recipient == r)) = [] := by
    rw [fetch_messages_remaining _ r hwfN.1]
    apply List.filter_eq_nil_iff.2
    intro m hm
    have hne := (List.mem_filter.1 hm).2
    simp only [Bool.not_eq_true'] at hne
    simp [hne]
  rw [hnone]
  rfl

/-- Witness for C1: register "alice" and "bob", send "ct1" then "ct2" from
alice to bob, fetch twice. -/
theorem C1_at_most_once_witness :
    (fetch_messages (runSends ⟨[⟨"alice", "t0"⟩, ⟨"bob", "t0"⟩], [], 0⟩ "bob"
        [⟨"alice", "ct1", "t1"⟩, ⟨"alice", "ct2", "t2"⟩]) "bob").1
      = [⟨"alice", "ct1", "t1"⟩, ⟨"alice", "ct2", "t2"⟩] ∧
    (fetch_messages (fetch_messages (runSends ⟨[⟨"alice", "t0"⟩, ⟨"bob", "t0"⟩], [], 0⟩
        "bob" [⟨"alice", "ct1", "t1"⟩, ⟨"alice", "ct2", "t2"⟩]) "bob").2 "bob").1 = [] := by
  have h := C1_at_most_once ⟨[⟨"alice", "t0"⟩, ⟨"bob", "t0"⟩], [], 0⟩ "bob"
    [⟨"alice", "ct1", "t1"⟩, ⟨"alice", "ct2", "t2"⟩]
    ⟨List.Pairwise.nil, by intro m hm; cases hm⟩
    rfl (by decide) rfl (by decide)
  exact ⟨h.1, h.2.2⟩

/-- C4 counterexample: the claim says a successful send "returns that id to
the caller", but the endpoint's response is only status "ok". Two successful
sends whose fresh ids differ (0 in a fresh store, 7 in a store whose counter
is at 7) produce identical responses, so the response cannot carry the id. -/
theorem C4_counterexample :
    (send_message_endpoint ⟨[⟨"a", "t"⟩, ⟨"b", "t"⟩], [], 0⟩ "a" "b" "x" "t1").1
      = (send_message_endpoint ⟨[⟨"a", "t"⟩, ⟨"b", "t"⟩], [], 7⟩ "a" "b" "x" "t1").1 ∧
    (send_message_endpoint ⟨[⟨"a", "t"⟩, ⟨"b", "t"⟩], [], 0⟩ "a" "b" "x" "t1").2.messages
      = [⟨0, "a", "b", "x", "t1"⟩] ∧
    (send_message_endpoint ⟨[⟨"a", "t"⟩, ⟨"b", "t"⟩], [], 7⟩ "a" "b" "x" "t1").2.messages
      = [⟨7, "a", "b", "x", "t1"⟩] ∧
    (0 : Nat) ≠ 7 :=
  ⟨rfl, rfl, rfl, by decide⟩

/-- C4 amended: a successful send appends exactly one new message carrying
the fresh id nextId — distinct from every stored id — but the response is
only status "ok"; the id is not returned to the caller. -/
theorem C4_send_appends_fresh_id (db : DB) (s r e ts : String)
    (hs : s ≠ "") (hr : r ≠ "") (he : e ≠ "")
    (hsu : user_exists db s = true) (hru : user_exists db r = true)
    (hfresh : ∀ m ∈ db.messages, m.id < db.nextId) :
    send_message_endpoint db s r e ts
      = (Except.ok ⟨"ok"⟩,
          { db with messages := db.messages ++ [⟨db.nextId, s, r, e, ts⟩],
                    nextId := db.nextId + 1 }) ∧
    ∀ m ∈ db.messages, m.id ≠ db.nextId := by
  refine ⟨send_success_step db s r e ts hs hr he hsu hru, ?_⟩
  intro m hm
  exact Nat.ne_of_lt (hfresh m hm)

/-- Witness for the amended C4: a send into a store already holding one
message. -/
theorem C4_send_appends_fresh_id_witness :
    send_message_endpoint ⟨[⟨"a", "t"⟩, ⟨"b", "t"⟩], [⟨0, "b", "a", "y", "t0"⟩], 1⟩
        "a" "b" "x" "t1"
      = (Except.ok ⟨"ok"⟩,
          ⟨[⟨"a", "t"⟩, ⟨"b", "t"⟩],
            [⟨0, "b", "a", "y", "t0"⟩, ⟨1, "a", "b", "x", "t1"⟩], 2⟩) := by
  have h := C4_send_appends_fresh_id ⟨[⟨"a", "t"⟩, ⟨"b", "t"⟩],
      [⟨0, "b", "a", "y", "t0"⟩], 1⟩ "a" "b" "x" "t1"
    (by decide) (by decide) (by decide) rfl rfl (by decide)
  exact h.1

/-- C5 counterexample: with only "alice" registered, a send from the
unregistered "bob" and a send from "alice" to the unregistered "bob" fail
with the very same 400 error, "Sender or recipient does not exist" — the
code does not distinguish SenderUnknown from RecipientUnknown. -/
theorem C5_counterexample :
    (send_message_endpoint ⟨[⟨"alice", "t0"⟩], [], 0⟩ "bob" "alice" "x" "t1").1
      = Except.error (ApiError.badRequest "Sender or recipient does not exist") ∧
    (send_message_endpoint ⟨[⟨"alice", "t0"⟩], [], 0⟩ "alice" "bob" "x" "t1").1
      = Except.error (ApiError.badRequest "Sender or recipient does not exist") :=
  ⟨rfl, rfl⟩

/-- C5 amended: a send with non-empty fields in which the sender or the
recipient is unregistered fails with the single combined 400 error "Sender
or recipient does not exist" (and stores nothing); the implementation does
not tell the two cases apart. -/
theorem C5_unknown_user_combined_error (db : DB) (s r e ts : String)
    (hs : s ≠ "") (hr : r ≠ "") (he : e ≠ "")
    (h : user_exists db s = false ∨ user_exists db r = false) :
    send_message_endpoint db s r e ts
      = (Except.error (ApiError.badRequest "Sender or recipient does not exist"), db) := by
  unfold send_message_endpoint
  rw [if_neg (by simp [hs, hr, he]), if_pos (by rcases h with h | h <;> simp [h])]

/-- Witness for the amended C5: unknown recipient "bob". -/
theorem C5_unknown_user_combined_error_witness :
    send_message_endpoint ⟨[⟨"alice", "t0"⟩], [], 0⟩ "alice" "bob" "x" "t1"
      = (Except.error (ApiError.badRequest "Sender or recipient does not exist"),
          ⟨[⟨"alice", "t0"⟩], [], 0⟩) :=
  C5_unknown_user_combined_error ⟨[⟨"alice", "t0"⟩], [], 0⟩ "alice" "bob" "x" "t1"
    (by decide) (by decide) (by decide) (Or.inr rfl)

/-- Outcome of one in-flight register call. `invalidInput` is the 400
"Username required"; `alreadyExists` is the 400 "Username already exists";
`integrityError` is an uncaught sqlite3.IntegrityError from `add_user`,
which FastAPI surfaces as a 500 internal error. -/
inductive RegOutcome where
  | running
  | invalidInput
  | success
  | alreadyExists
  | integrityError
deriving Repr, DecidableEq

/-- Control state of one in-flight register(u) call. pc 0: about to run
the `user_exists` check (first lock acquisition, including the handler's
branch on its result); pc 1: check passed, about to run `add_user` (second
lock acquisition); pc 2: finished. -/
structure RegThread where
  pc : Nat
  out : RegOutcome
deriving Repr, DecidableEq

/-- One atomic step of an in-flight register(u) call, exactly as the code
runs: the global lock is held inside `user_exists` and inside `add_user`
separately and is free between them. -/
def regStep (db : DB) (t : RegThread) (u ts : String) : DB × RegThread :=
  match t.pc with
  | 0 =>
    if u == "" then (db, ⟨2, RegOutcome.invalidInput⟩)
    else if user_exists db u then (db, ⟨2, RegOutcome.alreadyExists⟩)
    else (db, ⟨1, RegOutcome.running⟩)
  | 1 =>
    match add_user db u ts with
    | Except.ok db' => (db', ⟨2, RegOutcome.success⟩)
    | Except.error _ => (db, ⟨2, RegOutcome.integrityError⟩)
  | _ => (db, t)

/-- Shared state of two concurrent register(u) calls A and B. -/
structure TwoReg where
  db : DB
  ta : RegThread
  tb : RegThread
deriving Repr, DecidableEq

/-- Run a schedule over two concurrent register(u) calls: false means
thread A takes the next atomic step, true means thread B does. -/
def runTwoReg (u tsa tsb : String) : TwoReg → List Bool → TwoReg
  | s, [] => s
  | s, false :: rest =>
    runTwoReg u tsa tsb ⟨(regStep s.db s.ta u tsa).1, (regStep s.db s.ta u tsa).2, s.tb⟩ rest
  | s, true :: rest =>
    runTwoReg u tsa tsb ⟨(regStep s.db s.tb u tsb).1, s.ta, (regStep s.db s.tb u tsb).2⟩ rest

/-- The outcome the sequential endpoint's result corresponds to. -/
def regOutcomeOf : Except ApiError RegResponse → RegOutcome
  | Except.ok _ => RegOutcome.success
  | Except.error (ApiError.badRequest d) =>
    if d == "Username required" then RegOutcome.invalidInput else RegOutcome.alreadyExists
  | Except.error (ApiError.internalError _) => RegOutcome.integrityError

/-- Model fidelity: a register call that runs its two atomic steps without
interference reaches exactly the database and outcome of the sequential
endpoint `register`. -/
lemma regStep_uninterfered_eq_register (db : DB) (u ts : String) :
    ((regStep (regStep db ⟨0, RegOutcome.running⟩ u ts).1
        (regStep db ⟨0, RegOutcome.running⟩ u ts).2 u ts).1,
      (regStep (regStep db ⟨0, RegOutcome.running⟩ u ts).1
        (regStep db ⟨0, RegOutcome.running⟩ u ts).2 u ts).2.out)
      = ((register db u ts).2, regOutcomeOf (register db u ts).1) := by
  by_cases hu : (u == "") = true
  · simp [regStep, register, hu, regOutcomeOf]
  · by_cases hex : user_exists db u = true
    · simp [regStep, register, hu, hex, regOutcomeOf]
    · simp [regStep, register, hu, hex, regOutcomeOf,
        add_user_of_not_exists db u ts (by simp [hex])]

/-- C3: on the empty database, the interleaving A-check, B-check,
A-insert, B-insert of two concurrent register("alice") calls is possible
because the lock is released between the `user_exists` check and the
`add_user` insert. Thread A succeeds, but thread B ends with an uncaught
sqlite3.IntegrityError (a 500), not the AlreadyExists failure the claim
requires — witnessing that the check-then-insert is not atomic. -/
theorem C3_register_race_not_already_exists :
    (runTwoReg "alice" "t1" "t2"
        ⟨⟨[], [], 0⟩, ⟨0, RegOutcome.running⟩, ⟨0, RegOutcome.running⟩⟩
        [false, true, false, true]).ta.out = RegOutcome.success ∧
    (runTwoReg "alice" "t1" "t2"
        ⟨⟨[], [], 0⟩, ⟨0, RegOutcome.running⟩, ⟨0, RegOutcome.running⟩⟩
        [false, true, false, true]).tb.out = RegOutcome.integrityError ∧
    RegOutcome.integrityError ≠ RegOutcome.alreadyExists :=
  ⟨rfl, rfl, by decide⟩

end ChatServer
